import Mathlib

/-!
Shallow embedding of the GRC domain models (TypeScript implementation:
`shared/result.ts`, `shared/value-objects.ts`, `domain/control.ts`,
`domain/framework.ts`, `domain/evidence.ts`, `domain/risk.ts`).

Conventions of the embedding:
* JavaScript `Date` values are modelled as `Int` (epoch milliseconds);
  `new Date()` ("now") becomes an explicit `now : Int` parameter of every
  function whose body reads the clock.
* JavaScript `number` is modelled as `ℚ` (the values manipulated here are
  small exact decimals, on which IEEE comparison agrees with rational
  comparison).
* Branded string ids are modelled as plain `String`; the brand exists only
  at the TypeScript type level and has no runtime content.
* The TS `Result<T, E>` discriminated union becomes the inductive `Result`.
-/

namespace GRC

/-- `ValidationError` from `shared/result.ts`: a `{field, message, code}` record. -/
structure ValidationError where
  field : String
  message : String
  code : String
deriving Repr, DecidableEq

/-- `validationError(field, message, code)` constructor from `shared/result.ts`. -/
def validationError (field message code : String) : ValidationError :=
  { field := field, message := message, code := code }

/-- The TS `Result<T, E>` discriminated union from `shared/result.ts`. -/
inductive Result (α ε : Type) where
  | ok (value : α)
  | err (error : ε)
deriving Repr, DecidableEq

/-- JavaScript `String.prototype.trim()`, modelled directly on the character
list (drop leading and trailing whitespace). Used instead of `String.trim`
so that concrete instances evaluate by kernel reduction. -/
def jsTrim (s : String) : String :=
  ⟨((s.data.dropWhile Char.isWhitespace).reverse.dropWhile
      Char.isWhitespace).reverse⟩

/-- `createId(value, typeName)` from `shared/value-objects.ts`:
rejects `!value || value.trim().length === 0` with `EMPTY_ID`. -/
def createId (value : String) (typeName : String) : Result String ValidationError :=
  if value = "" ∨ (jsTrim value).length = 0 then
    .err (validationError "id" (typeName ++ " cannot be empty") "EMPTY_ID")
  else
    .ok value

/-- `frameworkId` from `shared/value-objects.ts`. -/
def frameworkId (value : String) : Result String ValidationError :=
  createId value "FrameworkId"

/-- `controlId` from `shared/value-objects.ts`. -/
def controlId (value : String) : Result String ValidationError :=
  createId value "ControlId"

/-- `evidenceId` from `shared/value-objects.ts`. -/
def evidenceId (value : String) : Result String ValidationError :=
  createId value "EvidenceId"

/-- `riskId` from `shared/value-objects.ts`. -/
def riskId (value : String) : Result String ValidationError :=
  createId value "RiskId"

/-- `userId` from `shared/value-objects.ts`. -/
def userId (value : String) : Result String ValidationError :=
  createId value "UserId"

/-- `integrationId` from `shared/value-objects.ts`. -/
def integrationId (value : String) : Result String ValidationError :=
  createId value "IntegrationId"

/-- `percentage(value)` from `shared/value-objects.ts`: rejects
`value < 0 || value > 100` with `INVALID_PERCENTAGE`, otherwise wraps the
number unchanged (the TS code performs no integrality check). -/
def percentage (value : ℚ) : Result ℚ ValidationError :=
  if value < 0 ∨ value > 100 then
    .err (validationError "percentage" "Percentage must be between 0 and 100"
      "INVALID_PERCENTAGE")
  else
    .ok value

/-- `ControlStatus` discriminated union from `domain/control.ts`. -/
inductive ControlStatus where
  | notImplemented
  | inProgress (progress : ℚ)
  | implemented (implementedAt : Int)
  | notApplicable (reason : String)
  | failed (reason : String) (detectedAt : Int)
deriving Repr, DecidableEq

/-- Discriminator test `status.type === "Failed"` from `domain/control.ts`. -/
def ControlStatus.isFailed : ControlStatus → Bool
  | .failed _ _ => true
  | _ => false

/-- Discriminator test `status.type === "Implemented"` from `domain/control.ts`. -/
def ControlStatus.isImplemented : ControlStatus → Bool
  | .implemented _ => true
  | _ => false

/-- `Control` entity from `domain/control.ts`. -/
structure Control where
  id : String
  frameworkId : String
  code : String
  title : String
  description : String
  status : ControlStatus
  ownerId : String
deriving Repr, DecidableEq

/-- `updateControlStatus(control, newStatus)` from `domain/control.ts`:
the single business rule forbids `Failed → Implemented`. -/
def updateControlStatus (control : Control) (newStatus : ControlStatus) :
    Result Control ValidationError :=
  if control.status.isFailed ∧ newStatus.isImplemented then
    .err (validationError "status"
      "Cannot transition directly from Failed to Implemented"
      "INVALID_TRANSITION")
  else
    .ok { control with status := newStatus }

/-- `FrameworkType` string literal union from `domain/framework.ts`. -/
inductive FrameworkType where
  | soc2
  | iso27001
  | hipaa
  | pciDss
  | gdpr
deriving Repr, DecidableEq

/-- `FrameworkStatus` string literal union from `domain/framework.ts`. -/
inductive FrameworkStatus where
  | draft
  | active
  | deprecated
deriving Repr, DecidableEq

/-- `Framework` entity from `domain/framework.ts`. -/
structure Framework where
  id : String
  type : FrameworkType
  name : String
  version : String
  description : String
  status : FrameworkStatus
  controlIds : List String
deriving Repr, DecidableEq

/-- `updateFrameworkStatus(framework, newStatus)` from `domain/framework.ts`:
rule 1 forbids `Deprecated → Active`; rule 2 forbids activating a framework
with zero controls. -/
def updateFrameworkStatus (framework : Framework) (newStatus : FrameworkStatus) :
    Result Framework ValidationError :=
  if framework.status = .deprecated ∧ newStatus = .active then
    .err (validationError "status" "Cannot reactivate a deprecated framework"
      "INVALID_TRANSITION")
  else if newStatus = .active ∧ framework.controlIds.length = 0 then
    .err (validationError "status" "Cannot activate a framework without controls"
      "NO_CONTROLS")
  else
    .ok { framework with status := newStatus }

/-- `addControlToFramework(framework, controlId)` from `domain/framework.ts`:
returns the framework unchanged when the id is already present, otherwise
appends it. -/
def addControlToFramework (framework : Framework) (cid : String) : Framework :=
  if framework.controlIds.contains cid then
    framework
  else
    { framework with controlIds := framework.controlIds ++ [cid] }

/-- `RiskLevel` string literal union from `domain/risk.ts`. -/
inductive RiskLevel where
  | low
  | medium
  | high
  | critical
deriving Repr, DecidableEq

/-- `riskLevelValue(level)` from `domain/risk.ts`. -/
def riskLevelValue : RiskLevel → Nat
  | .low => 1
  | .medium => 2
  | .high => 3
  | .critical => 4

/-- `RiskScore` immutable value object from `domain/risk.ts`. -/
structure RiskScore where
  likelihood : RiskLevel
  impact : RiskLevel
  value : Nat
  label : String
deriving Repr, DecidableEq

/-- `calculateRiskScore(likelihood, impact)` from `domain/risk.ts`. -/
def calculateRiskScore (likelihood impact : RiskLevel) : RiskScore :=
  let value := riskLevelValue likelihood * riskLevelValue impact
  let label :=
    if value ≤ 2 then "Low"
    else if value ≤ 6 then "Medium"
    else if value ≤ 12 then "High"
    else "Critical"
  { likelihood := likelihood, impact := impact, value := value, label := label }

/-- `RiskCategory` string literal union from `domain/risk.ts`. -/
inductive RiskCategory where
  | operational
  | technical
  | compliance
  | financial
deriving Repr, DecidableEq

/-- `RiskStatus` discriminated union from `domain/risk.ts`. -/
inductive RiskStatus where
  | identified (identifiedAt : Int)
  | assessed (assessedAt : Int) (assessorId : String)
  | mitigated (mitigatedAt : Int) (controlIds : List String)
  | accepted (acceptedById : String) (reason : String) (expiresAt : Int)
  | closed (closedAt : Int) (resolution : String)
deriving Repr, DecidableEq

/-- Discriminator test `status.type === "Closed"` from `domain/risk.ts`. -/
def RiskStatus.isClosed : RiskStatus → Bool
  | .closed _ _ => true
  | _ => false

/-- `Risk` entity from `domain/risk.ts`. -/
structure Risk where
  id : String
  title : String
  description : String
  category : RiskCategory
  inherentScore : RiskScore
  residualScore : RiskScore
  status : RiskStatus
  ownerId : String
deriving Repr, DecidableEq

/-- `CreateRiskInput` from `domain/risk.ts`. -/
structure CreateRiskInput where
  id : String
  title : String
  description : String
  category : RiskCategory
  likelihood : RiskLevel
  impact : RiskLevel
  ownerId : String
deriving Repr, DecidableEq

/-- `createRisk(input)` from `domain/risk.ts`. `now` models the
`new Date()` read for the initial `Identified` status. The error list is
accumulated exactly as the TS `errors.push` sequence does. -/
def createRisk (now : Int) (input : CreateRiskInput) :
    Result Risk (List ValidationError) :=
  let idResult := riskId input.id
  let errors : List ValidationError :=
    (match idResult with
      | .err e => [e]
      | .ok _ => []) ++
    (if input.title = "" ∨ (jsTrim input.title).length = 0 then
      [validationError "title" "Risk title is required" "REQUIRED"]
    else [])
  if errors.length > 0 then
    .err errors
  else
    let inherentScore := calculateRiskScore input.likelihood input.impact
    .ok
      { id := match idResult with
          | .ok v => v
          | .err _ => input.id
        title := input.title
        description := input.description
        category := input.category
        inherentScore := inherentScore
        residualScore := inherentScore
        status := .identified now
        ownerId := input.ownerId }

/-- `updateRiskStatus(risk, newStatus)` from `domain/risk.ts`: rule 1 makes
`Closed` terminal; rule 2 rejects an `Accepted` status whose `expiresAt` is
not in the future. `now` models the `new Date()` read in rule 2. -/
def updateRiskStatus (now : Int) (risk : Risk) (newStatus : RiskStatus) :
    Result Risk ValidationError :=
  if risk.status.isClosed then
    .err (validationError "status" "Cannot transition from Closed status"
      "INVALID_TRANSITION")
  else if (match newStatus with
      | .accepted _ _ expiresAt => decide (expiresAt ≤ now)
      | _ => false) then
    .err (validationError "expiresAt"
      "Acceptance expiration date must be in the future"
      "INVALID_EXPIRATION")
  else
    .ok { risk with status := newStatus }

/-- `updateResidualScore(risk, likelihood, impact)` from `domain/risk.ts`:
unconditional, total, replaces only `residualScore`. -/
def updateResidualScore (risk : Risk) (likelihood impact : RiskLevel) : Risk :=
  { risk with residualScore := calculateRiskScore likelihood impact }

/-- `FileType` string literal union from `domain/evidence.ts`. -/
inductive FileType where
  | pdf
  | docx
  | xlsx
  | png
  | jpg
deriving Repr, DecidableEq

/-- `CheckResult` discriminated union from `domain/evidence.ts`. -/
inductive CheckResult where
  | passed
  | failed (reason : String)
  | skipped (reason : String)
deriving Repr, DecidableEq

/-- `EvidenceType` discriminated union from `domain/evidence.ts`. -/
inductive EvidenceType where
  | document (fileUrl : String) (fileType : FileType)
  | screenshot (imageUrl : String) (capturedAt : Int)
  | automatedCheck (integrationId : String) (checkName : String)
      (lastRunAt : Int) (result : CheckResult)
  | manualReview (reviewerId : String) (reviewedAt : Int) (notes : String)
deriving Repr, DecidableEq

/-- `EvidenceStatus` string literal union from `domain/evidence.ts`. -/
inductive EvidenceStatus where
  | valid
  | expired
  | pending
  | rejected
deriving Repr, DecidableEq

/-- `Evidence` entity from `domain/evidence.ts`; `expiresAt: Date | null`
becomes `Option Int`. -/
structure Evidence where
  id : String
  controlId : String
  evidenceType : EvidenceType
  collectedAt : Int
  expiresAt : Option Int
  description : String
deriving Repr, DecidableEq

/-- `CreateEvidenceInput` from `domain/evidence.ts`. -/
structure CreateEvidenceInput where
  id : String
  controlId : String
  evidenceType : EvidenceType
  collectedAt : Int
  expiresAt : Option Int
  description : String
deriving Repr, DecidableEq

/-- `createEvidence(input)` from `domain/evidence.ts`: runs the id, expiry
and collection-date checks unconditionally, accumulating one error per
failing check in `errors.push` order; `now` models the `new Date()` reads. -/
def createEvidence (now : Int) (input : CreateEvidenceInput) :
    Result Evidence (List ValidationError) :=
  let idResult := evidenceId input.id
  let errors : List ValidationError :=
    (match idResult with
      | .err e => [e]
      | .ok _ => []) ++
    (match input.expiresAt with
      | some t =>
        if t ≤ now then
          [validationError "expiresAt" "Expiration date must be in the future"
            "INVALID_EXPIRATION"]
        else []
      | none => []) ++
    (if input.collectedAt > now then
      [validationError "collectedAt" "Collection date cannot be in the future"
        "INVALID_COLLECTION_DATE"]
    else [])
  if errors.length > 0 then
    .err errors
  else
    .ok
      { id := match idResult with
          | .ok v => v
          | .err _ => input.id
        controlId := input.controlId
        evidenceType := input.evidenceType
        collectedAt := input.collectedAt
        expiresAt := input.expiresAt
        description := input.description }

/-- `getEvidenceStatus(evidence)` from `domain/evidence.ts`: expiry wins,
then automated-check results are interpreted, everything else is `Valid`.
`now` models the `new Date()` read. -/
def getEvidenceStatus (now : Int) (evidence : Evidence) : EvidenceStatus :=
  if (match evidence.expiresAt with
      | some t => decide (t < now)
      | none => false) then
    .expired
  else
    match evidence.evidenceType with
    | .automatedCheck _ _ _ result =>
      match result with
      | .failed _ => .rejected
      | .skipped _ => .pending
      | .passed => .valid
    | _ => .valid

/-! ## General lemmas about the embedded functions -/

/-- The guard `value === "" || value.trim().length === 0` of `createId` is
equivalent to the trimmed input being empty. -/
theorem jsTrim_guard_iff (v : String) :
    (v = "" ∨ (jsTrim v).length = 0) ↔ jsTrim v = "" := by
  constructor
  · rintro (rfl | h)
    · rfl
    · exact String.ext (List.length_eq_zero.mp h)
  · intro h
    right
    rw [h]
    rfl

/-- `createId` characterised: the `EMPTY_ID` error exactly on trim-empty
input, the input string returned unchanged otherwise. -/
theorem createId_eq (v tn : String) :
    createId v tn =
      if jsTrim v = "" then
        .err (validationError "id" (tn ++ " cannot be empty") "EMPTY_ID")
      else
        .ok v := by
  unfold createId
  by_cases h : jsTrim v = ""
  · rw [if_pos ((jsTrim_guard_iff v).mpr h), if_pos h]
  · rw [if_neg (fun hc => h ((jsTrim_guard_iff v).mp hc)), if_neg h]

/-! ## C1 -/

/-- C1: `updateControlStatus(c, s)` returns the `INVALID_TRANSITION` error
with message "Cannot transition directly from Failed to Implemented" exactly
when `c.status` is `Failed` and `s` is `Implemented`; whenever it errors the
control's status is still the prior `Failed` one, and in every other case it
returns `Ok` of `c` with the status replaced by `s`. -/
theorem updateControlStatus_failed_implemented_rule (c : Control) (s : ControlStatus) :
    (updateControlStatus c s =
        Result.err (validationError "status"
          "Cannot transition directly from Failed to Implemented"
          "INVALID_TRANSITION") ↔
      c.status.isFailed = true ∧ s.isImplemented = true) ∧
    (∀ e, updateControlStatus c s = Result.err e → c.status.isFailed = true) ∧
    (¬(c.status.isFailed = true ∧ s.isImplemented = true) →
      updateControlStatus c s = Result.ok { c with status := s }) := by
  unfold updateControlStatus
  by_cases h : c.status.isFailed = true ∧ s.isImplemented = true
  · simp [h]
  · simp [h]

/-- Witness for C1: a concrete `Failed` control rejects `Implemented` with
the documented error and accepts `NotApplicable` unchanged otherwise. -/
theorem updateControlStatus_failed_implemented_rule_witness :
    updateControlStatus
        ⟨"c-1", "f-1", "AC-1", "Access control", "desc",
          ControlStatus.failed "drift" 10, "u-1"⟩
        (ControlStatus.implemented 20) =
      Result.err (validationError "status"
        "Cannot transition directly from Failed to Implemented"
        "INVALID_TRANSITION") ∧
    updateControlStatus
        ⟨"c-1", "f-1", "AC-1", "Access control", "desc",
          ControlStatus.failed "drift" 10, "u-1"⟩
        (ControlStatus.notApplicable "retired") =
      Result.ok
        ⟨"c-1", "f-1", "AC-1", "Access control", "desc",
          ControlStatus.notApplicable "retired", "u-1"⟩ :=
  ⟨(updateControlStatus_failed_implemented_rule _ _).1.mpr (by decide),
   (updateControlStatus_failed_implemented_rule _ _).2.2 (by decide)⟩

/-! ## C2 -/

/-- C2: `updateRiskStatus(r, s)` rejects every transition out of a `Closed`
risk with `INVALID_TRANSITION` (Closed is terminal); otherwise it rejects an
`Accepted` candidate whose `expiresAt` is not strictly in the future with
`INVALID_EXPIRATION`; in all remaining cases it returns `Ok` of `r` with the
status replaced by `s`. -/
theorem updateRiskStatus_rules (now : Int) (r : Risk) (s : RiskStatus) :
    (r.status.isClosed = true →
      updateRiskStatus now r s =
        Result.err (validationError "status" "Cannot transition from Closed status"
          "INVALID_TRANSITION")) ∧
    (r.status.isClosed = false →
      (∀ a reason t, s = RiskStatus.accepted a reason t → t ≤ now →
        updateRiskStatus now r s =
          Result.err (validationError "expiresAt"
            "Acceptance expiration date must be in the future"
            "INVALID_EXPIRATION")) ∧
      ((∀ a reason t, s = RiskStatus.accepted a reason t → now < t) →
        updateRiskStatus now r s = Result.ok { r with status := s })) := by
  refine ⟨fun hc => by simp [updateRiskStatus, hc], fun hc => ⟨?_, ?_⟩⟩
  · rintro a reason t rfl ht
    simp [updateRiskStatus, hc, ht]
  · intro hall
    cases s with
    | accepted a reason t =>
      have hlt : now < t := hall a reason t rfl
      simp [updateRiskStatus, hc, not_le.mpr hlt]
    | identified t => simp [updateRiskStatus, hc]
    | assessed t a => simp [updateRiskStatus, hc]
    | mitigated t cs => simp [updateRiskStatus, hc]
    | closed t res => simp [updateRiskStatus, hc]

/-- Witness for C2 at concrete inputs: a Closed risk rejects any new status;
an open risk rejects an already-expired Accepted status; an open risk accepts
an ordinary transition. -/
theorem updateRiskStatus_rules_witness :
    updateRiskStatus 100
        ⟨"r-1", "Outage", "d", RiskCategory.operational,
          calculateRiskScore .low .low, calculateRiskScore .low .low,
          RiskStatus.closed 5 "done", "u-1"⟩
        (RiskStatus.identified 50) =
      Result.err (validationError "status" "Cannot transition from Closed status"
        "INVALID_TRANSITION") ∧
    updateRiskStatus 100
        ⟨"r-1", "Outage", "d", RiskCategory.operational,
          calculateRiskScore .low .low, calculateRiskScore .low .low,
          RiskStatus.identified 5, "u-1"⟩
        (RiskStatus.accepted "u-2" "risk accepted" 50) =
      Result.err (validationError "expiresAt"
        "Acceptance expiration date must be in the future"
        "INVALID_EXPIRATION") ∧
    updateRiskStatus 100
        ⟨"r-1", "Outage", "d", RiskCategory.operational,
          calculateRiskScore .low .low, calculateRiskScore .low .low,
          RiskStatus.identified 5, "u-1"⟩
        (RiskStatus.assessed 60 "u-3") =
      Result.ok
        ⟨"r-1", "Outage", "d", RiskCategory.operational,
          calculateRiskScore .low .low, calculateRiskScore .low .low,
          RiskStatus.assessed 60 "u-3", "u-1"⟩ :=
  ⟨(updateRiskStatus_rules 100 _ _).1 (by decide),
   ((updateRiskStatus_rules 100 _ _).2 (by decide)).1 "u-2" "risk accepted" 50
     rfl (by decide),
   ((updateRiskStatus_rules 100 _ _).2 (by decide)).2
     (fun a reason t h => nomatch h)⟩

/-! ## C3 -/

/-- C3: `getEvidenceStatus` returns `Expired` whenever `expiresAt` is
present and strictly before `now`, regardless of the evidence type (expiry
has highest precedence); otherwise an `AutomatedCheck` maps `Failed` to
`Rejected`, `Skipped` to `Pending` and `Passed` to `Valid`, and every other
evidence type yields `Valid`. -/
theorem getEvidenceStatus_spec (now : Int) (e : Evidence) :
    ((∃ t, e.expiresAt = some t ∧ t < now) →
      getEvidenceStatus now e = EvidenceStatus.expired) ∧
    (¬(∃ t, e.expiresAt = some t ∧ t < now) →
      (∀ i n l reason,
        e.evidenceType = EvidenceType.automatedCheck i n l (.failed reason) →
        getEvidenceStatus now e = EvidenceStatus.rejected) ∧
      (∀ i n l reason,
        e.evidenceType = EvidenceType.automatedCheck i n l (.skipped reason) →
        getEvidenceStatus now e = EvidenceStatus.pending) ∧
      (∀ i n l,
        e.evidenceType = EvidenceType.automatedCheck i n l .passed →
        getEvidenceStatus now e = EvidenceStatus.valid) ∧
      ((∀ i n l res, e.evidenceType ≠ EvidenceType.automatedCheck i n l res) →
        getEvidenceStatus now e = EvidenceStatus.valid)) := by
  constructor
  · rintro ⟨t, ht, hlt⟩
    simp [getEvidenceStatus, ht, hlt]
  · intro hne
    have hcond : (match e.expiresAt with
        | some t => decide (t < now)
        | none => false) = false := by
      cases he : e.expiresAt with
      | none => rfl
      | some t =>
        simp only [decide_eq_false_iff_not]
        intro hlt
        exact hne ⟨t, he, hlt⟩
    refine ⟨?_, ?_, ?_, ?_⟩
    · intro i n l reason heq
      simp [getEvidenceStatus, hcond, heq]
    · intro i n l reason heq
      simp [getEvidenceStatus, hcond, heq]
    · intro i n l heq
      simp [getEvidenceStatus, hcond, heq]
    · intro hother
      cases het : e.evidenceType with
      | automatedCheck i n l res => exact absurd het (hother i n l res)
      | document u ft => simp [getEvidenceStatus, hcond, het]
      | screenshot u t => simp [getEvidenceStatus, hcond, het]
      | manualReview rv t notes => simp [getEvidenceStatus, hcond, het]

/-- Witness for C3 at concrete inputs: a past expiry dominates a passing
automated check; without expiry a failed check is Rejected and a document is
Valid. -/
theorem getEvidenceStatus_spec_witness :
    getEvidenceStatus 100
        ⟨"e-1", "c-1", EvidenceType.automatedCheck "i-1" "chk" 10 .passed,
          10, some 50, "d"⟩ = EvidenceStatus.expired ∧
    getEvidenceStatus 100
        ⟨"e-2", "c-1", EvidenceType.automatedCheck "i-1" "chk" 10 (.failed "bad"),
          10, none, "d"⟩ = EvidenceStatus.rejected ∧
    getEvidenceStatus 100
        ⟨"e-3", "c-1", EvidenceType.document "https://x" FileType.pdf,
          10, some 200, "d"⟩ = EvidenceStatus.valid :=
  ⟨(getEvidenceStatus_spec 100 _).1 ⟨50, rfl, by decide⟩,
   (((getEvidenceStatus_spec 100 _).2
       (by rintro ⟨t, ht, -⟩; cases ht)).1) "i-1" "chk" 10 "bad" rfl,
   (((getEvidenceStatus_spec 100 _).2
       (by rintro ⟨t, ht, hlt⟩; cases ht; exact absurd hlt (by decide))).2.2.2)
     (fun i n l res h => nomatch h)⟩

/-! ## C4 -/

/-- The band table as the spec states it, written independently of
`calculateRiskScore` so the source's inlined label expression can be compared
against it: value ≤ 2 → Low, ≤ 6 → Medium, ≤ 12 → High, else Critical. -/
def riskBandSpec (v : Nat) : String :=
  if v ≤ 2 then "Low"
  else if v ≤ 6 then "Medium"
  else if v ≤ 12 then "High"
  else "Critical"

/-- C4: for all 16 likelihood/impact combinations the score value is the
product of the ordinals (Low=1, Medium=2, High=3, Critical=4) and the label
is the spec's band of that value; the band boundaries are exact at
2→Low, 3→Medium, 6→Medium, 7→High, 12→High, 13→Critical. -/
theorem calculateRiskScore_value_label :
    (∀ l i : RiskLevel,
      (calculateRiskScore l i).value = riskLevelValue l * riskLevelValue i ∧
      (calculateRiskScore l i).label = riskBandSpec (calculateRiskScore l i).value) ∧
    riskLevelValue .low = 1 ∧ riskLevelValue .medium = 2 ∧
    riskLevelValue .high = 3 ∧ riskLevelValue .critical = 4 ∧
    riskBandSpec 2 = "Low" ∧ riskBandSpec 3 = "Medium" ∧
    riskBandSpec 6 = "Medium" ∧ riskBandSpec 7 = "High" ∧
    riskBandSpec 12 = "High" ∧ riskBandSpec 13 = "Critical" := by
  refine ⟨fun l i => ?_, rfl, rfl, rfl, rfl, rfl, rfl, rfl, rfl, rfl, rfl⟩
  cases l <;> cases i <;> exact ⟨rfl, rfl⟩

/-! ## C5 -/

/-- C5: `updateFrameworkStatus(f, s)` rejects `Deprecated → Active` with
`INVALID_TRANSITION` (checked first); otherwise rejects activation of a
framework with zero controls with `NO_CONTROLS`; otherwise returns `Ok` of
`f` with the status replaced — in particular activating a control-less,
non-deprecated framework fails with `NO_CONTROLS` and succeeds right after a
control has been added. -/
theorem updateFrameworkStatus_rules (f : Framework) (s : FrameworkStatus) :
    (f.status = FrameworkStatus.deprecated ∧ s = FrameworkStatus.active →
      updateFrameworkStatus f s =
        Result.err (validationError "status" "Cannot reactivate a deprecated framework"
          "INVALID_TRANSITION")) ∧
    (¬(f.status = FrameworkStatus.deprecated ∧ s = FrameworkStatus.active) →
      s = FrameworkStatus.active → f.controlIds = [] →
      updateFrameworkStatus f s =
        Result.err (validationError "status" "Cannot activate a framework without controls"
          "NO_CONTROLS")) ∧
    (¬(f.status = FrameworkStatus.deprecated ∧ s = FrameworkStatus.active) →
      ¬(s = FrameworkStatus.active ∧ f.controlIds = []) →
      updateFrameworkStatus f s = Result.ok { f with status := s }) ∧
    (f.status ≠ FrameworkStatus.deprecated → f.controlIds = [] →
      updateFrameworkStatus f FrameworkStatus.active =
        Result.err (validationError "status" "Cannot activate a framework without controls"
          "NO_CONTROLS") ∧
      ∀ x, updateFrameworkStatus (addControlToFramework f x) FrameworkStatus.active =
        Result.ok { f with status := FrameworkStatus.active, controlIds := [x] }) := by
  refine ⟨?_, ?_, ?_, ?_⟩
  · rintro ⟨h1, rfl⟩
    simp [updateFrameworkStatus, h1]
  · intro hn hs hc
    subst hs
    have hd : f.status ≠ FrameworkStatus.deprecated := fun h => hn ⟨h, rfl⟩
    simp [updateFrameworkStatus, hd, hc]
  · intro hn hn2
    have h2 : ¬(s = FrameworkStatus.active ∧ f.controlIds.length = 0) :=
      fun h => hn2 ⟨h.1, List.length_eq_zero.mp h.2⟩
    unfold updateFrameworkStatus
    rw [if_neg hn, if_neg h2]
  · intro hd hc
    refine ⟨by simp [updateFrameworkStatus, hd, hc], fun x => ?_⟩
    simp [addControlToFramework, updateFrameworkStatus, hc, hd]

/-- Witness for C5 at concrete inputs: reactivating a deprecated framework
fails, activating a control-less draft fails with `NO_CONTROLS`, and the same
activation succeeds after one control is added. -/
theorem updateFrameworkStatus_rules_witness :
    updateFrameworkStatus
        ⟨"f-1", FrameworkType.soc2, "SOC 2", "1.0", "d",
          FrameworkStatus.deprecated, ["c-1"]⟩ FrameworkStatus.active =
      Result.err (validationError "status" "Cannot reactivate a deprecated framework"
        "INVALID_TRANSITION") ∧
    updateFrameworkStatus
        ⟨"f-1", FrameworkType.soc2, "SOC 2", "1.0", "d",
          FrameworkStatus.draft, []⟩ FrameworkStatus.active =
      Result.err (validationError "status" "Cannot activate a framework without controls"
        "NO_CONTROLS") ∧
    updateFrameworkStatus
        (addControlToFramework
          ⟨"f-1", FrameworkType.soc2, "SOC 2", "1.0", "d",
            FrameworkStatus.draft, []⟩ "c-1") FrameworkStatus.active =
      Result.ok
        ⟨"f-1", FrameworkType.soc2, "SOC 2", "1.0", "d",
          FrameworkStatus.active, ["c-1"]⟩ :=
  ⟨(updateFrameworkStatus_rules _ _).1 ⟨rfl, rfl⟩,
   (updateFrameworkStatus_rules _ _).2.1 (by decide) rfl rfl,
   ((updateFrameworkStatus_rules _ FrameworkStatus.active).2.2.2
     (by decide) rfl).2 "c-1"⟩

/-! ## C6 -/

/-- C6: `addControlToFramework` is total (it returns a `Framework`, never an
error), returns the unchanged snapshot when the id is already present,
otherwise appends the id at the end keeping all earlier ids in order; it is
idempotent, and adding a fresh id twice leaves exactly one occurrence. -/
theorem addControlToFramework_idempotent (f : Framework) (x : String) :
    (f.controlIds.contains x = true → addControlToFramework f x = f) ∧
    (f.controlIds.contains x = false →
      addControlToFramework f x = { f with controlIds := f.controlIds ++ [x] }) ∧
    addControlToFramework (addControlToFramework f x) x = addControlToFramework f x ∧
    (f.controlIds.contains x = false →
      (addControlToFramework (addControlToFramework f x) x).controlIds.count x = 1) := by
  have happ : ∀ l : List String, (l ++ [x]).contains x = true :=
    fun l => List.elem_iff.mpr (List.mem_append_right l (List.mem_singleton.mpr rfl))
  have step_pos : ∀ g : Framework, g.controlIds.contains x = true →
      addControlToFramework g x = g := by
    intro g h
    unfold addControlToFramework
    rw [if_pos h]
  have step_neg : ∀ g : Framework, g.controlIds.contains x = false →
      addControlToFramework g x = { g with controlIds := g.controlIds ++ [x] } := by
    intro g h
    unfold addControlToFramework
    rw [if_neg (by rw [h]; exact Bool.false_ne_true)]
  refine ⟨step_pos f, step_neg f, ?_, ?_⟩
  · cases hb : f.controlIds.contains x
    · rw [step_neg f hb]
      exact step_pos _ (happ f.controlIds)
    · rw [step_pos f hb, step_pos f hb]
  · intro h
    rw [step_neg f h, step_pos _ (happ f.controlIds)]
    have hz : f.controlIds.count x = 0 :=
      List.count_eq_zero.mpr (fun hm => Bool.false_ne_true (h ▸ List.elem_iff.mpr hm))
    show (f.controlIds ++ [x]).count x = 1
    rw [List.count_append, hz, Nat.zero_add, List.count_singleton,
      if_pos (beq_self_eq_true x)]

/-- Witness for C6 at concrete inputs: adding "c-1" to a control-less
framework appends it, and adding it twice leaves a single occurrence. -/
theorem addControlToFramework_idempotent_witness :
    addControlToFramework
        ⟨"f-1", FrameworkType.soc2, "SOC 2", "1.0", "d",
          FrameworkStatus.draft, []⟩ "c-1" =
      ⟨"f-1", FrameworkType.soc2, "SOC 2", "1.0", "d",
        FrameworkStatus.draft, ["c-1"]⟩ ∧
    (addControlToFramework
        (addControlToFramework
          ⟨"f-1", FrameworkType.soc2, "SOC 2", "1.0", "d",
            FrameworkStatus.draft, []⟩ "c-1") "c-1").controlIds.count "c-1" = 1 :=
  ⟨(addControlToFramework_idempotent _ "c-1").2.1 rfl,
   (addControlToFramework_idempotent _ "c-1").2.2.2 rfl⟩

/-! ## C7 -/

/-- The behaviour C7 asserts of one identifier constructor: `EMPTY_ID` error
exactly on empty/whitespace-only input, `Ok` wrapping the input unchanged on
any other input, so a constructed value is never trim-empty. -/
def IdSpecHolds (mk : String → Result String ValidationError) (s : String) : Prop :=
  ((∃ e, mk s = Result.err e ∧ e.code = "EMPTY_ID") ↔ jsTrim s = "") ∧
  (jsTrim s ≠ "" → mk s = Result.ok s) ∧
  (∀ v, mk s = Result.ok v → v = s ∧ jsTrim v ≠ "")

/-- `createId` satisfies the C7 behaviour for every type name. -/
theorem createId_spec_all (tn s : String) : IdSpecHolds (fun v => createId v tn) s := by
  unfold IdSpecHolds
  simp only [createId_eq]
  by_cases h : jsTrim s = ""
  · simp [h, validationError]
  · simp only [if_neg h]
    refine ⟨⟨fun h' => ?_, fun hc => absurd hc h⟩, fun _ => trivial, fun v hv => ?_⟩
    · obtain ⟨e, he, -⟩ := h'
      exact nomatch he
    · cases hv
      exact ⟨rfl, h⟩

/-- C7: each of the six identifier constructors fails with `EMPTY_ID` exactly
on empty or whitespace-only input, succeeds on every other string returning
exactly the input, and never wraps a trim-empty value. -/
theorem idConstructors_empty_id (s : String) :
    IdSpecHolds frameworkId s ∧ IdSpecHolds controlId s ∧
    IdSpecHolds evidenceId s ∧ IdSpecHolds riskId s ∧
    IdSpecHolds userId s ∧ IdSpecHolds integrationId s :=
  ⟨createId_spec_all "FrameworkId" s, createId_spec_all "ControlId" s,
   createId_spec_all "EvidenceId" s, createId_spec_all "RiskId" s,
   createId_spec_all "UserId" s, createId_spec_all "IntegrationId" s⟩

/-- Witness for C7 at concrete inputs: a non-blank id is wrapped unchanged, a
whitespace-only id fails with `EMPTY_ID`. -/
theorem idConstructors_empty_id_witness :
    frameworkId "SOC2" = Result.ok "SOC2" ∧
    (∃ e, riskId "   " = Result.err e ∧ e.code = "EMPTY_ID") ∧
    evidenceId "e-1" = Result.ok "e-1" :=
  ⟨((idConstructors_empty_id "SOC2").1).2.1 (by decide),
   ((idConstructors_empty_id "   ").2.2.2.1).1.mpr (by decide),
   ((idConstructors_empty_id "e-1").2.2.1).2.1 (by decide)⟩

/-! ## C8 -/

/-- C8 counterexample: `percentage(50.5)` succeeds although 50.5 is not an
integer — the constructor only range-checks its numeric input, so a
constructed `Percentage` need not wrap an integer. -/
theorem percentage_not_integer_counterexample :
    percentage ((101 : ℚ) / 2) = Result.ok ((101 : ℚ) / 2) ∧
    ((101 : ℚ) / 2).isInt = false := by
  have hq : (101 : ℚ) / 2 = Rat.mk' 101 2 (by decide) (by decide) := by
    rw [Rat.mk'_eq_divInt, Rat.divInt_eq_div]
    norm_num
  rw [hq]
  exact ⟨by decide, by decide⟩

/-- C8 (amended): `percentage(v)` succeeds iff `0 ≤ v ≤ 100` and fails with
`INVALID_PERCENTAGE` outside that range; a successful construction wraps the
input number unchanged (any rational in range, not necessarily an integer)
and re-wrapping the wrapped value yields the same result (idempotence). -/
theorem percentage_spec (v : ℚ) :
    ((∃ p, percentage v = Result.ok p) ↔ 0 ≤ v ∧ v ≤ 100) ∧
    (v < 0 ∨ v > 100 → percentage v =
      Result.err (validationError "percentage" "Percentage must be between 0 and 100"
        "INVALID_PERCENTAGE")) ∧
    (∀ p, percentage v = Result.ok p →
      p = v ∧ 0 ≤ p ∧ p ≤ 100 ∧ percentage p = Result.ok p) := by
  unfold percentage
  by_cases h : v < 0 ∨ v > 100
  · rw [if_pos h]
    refine ⟨⟨fun hex => ?_, fun hr => ?_⟩, fun _ => rfl, fun p hp => nomatch hp⟩
    · obtain ⟨p, hp⟩ := hex
      exact nomatch hp
    · rcases h with h | h
      · exact absurd hr.1 (not_le.mpr h)
      · exact absurd hr.2 (not_le.mpr h)
  · rw [if_neg h]
    have h' : 0 ≤ v ∧ v ≤ 100 := by
      constructor
      · exact not_lt.mp (fun hc => h (Or.inl hc))
      · exact not_lt.mp (fun hc => h (Or.inr hc))
    refine ⟨⟨fun _ => h', fun _ => ⟨v, rfl⟩⟩, fun hc => absurd hc h, fun p hp => ?_⟩
    cases hp
    exact ⟨rfl, h'.1, h'.2, by rw [if_neg h]⟩

/-- Witness for C8 at concrete inputs: 50 is accepted, 101 is rejected with
`INVALID_PERCENTAGE`. -/
theorem percentage_spec_witness :
    (∃ p, percentage (50 : ℚ) = Result.ok p) ∧
    percentage (101 : ℚ) =
      Result.err (validationError "percentage" "Percentage must be between 0 and 100"
        "INVALID_PERCENTAGE") :=
  ⟨(percentage_spec 50).1.mpr ⟨by norm_num, by norm_num⟩,
   (percentage_spec 101).2.1 (Or.inr (by norm_num))⟩

/-! ## C9 -/

/-- C9: `createEvidence` errors exactly when some field check fails —
trim-empty id (`EMPTY_ID`), present `expiresAt ≤ now` (`INVALID_EXPIRATION`,
boundary exclusive) or `collectedAt > now` (`INVALID_COLLECTION_DATE`,
boundary inclusive) — collecting one error per failing check, in check
order, into a non-empty list; it returns `Ok` of the evidence built from the
input exactly when no check fails. -/
theorem createEvidence_spec (now : Int) (input : CreateEvidenceInput) :
    ((∃ es, createEvidence now input = Result.err es) ↔
      (jsTrim input.id = "" ∨ (∃ t, input.expiresAt = some t ∧ t ≤ now) ∨
        input.collectedAt > now)) ∧
    (∀ es, createEvidence now input = Result.err es →
      es ≠ [] ∧
      es.map (fun e => e.code) =
        (if jsTrim input.id = "" then ["EMPTY_ID"] else []) ++
        (match input.expiresAt with
          | some t => if t ≤ now then ["INVALID_EXPIRATION"] else []
          | none => []) ++
        (if input.collectedAt > now then ["INVALID_COLLECTION_DATE"] else [])) ∧
    (¬(jsTrim input.id = "" ∨ (∃ t, input.expiresAt = some t ∧ t ≤ now) ∨
        input.collectedAt > now) →
      createEvidence now input =
        Result.ok ⟨input.id, input.controlId, input.evidenceType,
          input.collectedAt, input.expiresAt, input.description⟩) := by
  cases he : input.expiresAt with
  | none =>
    by_cases h1 : jsTrim input.id = "" <;> by_cases h3 : input.collectedAt > now <;>
      simp [createEvidence, evidenceId, createId_eq, h1, he, h3, validationError]
  | some t =>
    by_cases h1 : jsTrim input.id = "" <;> by_cases h2 : t ≤ now <;>
      by_cases h3 : input.collectedAt > now <;>
      simp [createEvidence, evidenceId, createId_eq, h1, he, h2, h3, validationError]

/-- Witness for C9 at concrete inputs: `collectedAt = now` with future expiry
succeeds; an input failing all three checks (empty id, `expiresAt = now`,
future `collectedAt`) collects exactly the three errors in order. -/
theorem createEvidence_spec_witness :
    createEvidence 100
        ⟨"e-1", "c-1", EvidenceType.document "https://x" FileType.pdf,
          100, some 200, "d"⟩ =
      Result.ok
        ⟨"e-1", "c-1", EvidenceType.document "https://x" FileType.pdf,
          100, some 200, "d"⟩ ∧
    (∃ es, createEvidence 100
        ⟨"", "c-1", EvidenceType.document "https://x" FileType.pdf,
          101, some 100, "d"⟩ = Result.err es) ∧
    ([validationError "id" "EvidenceId cannot be empty" "EMPTY_ID",
      validationError "expiresAt" "Expiration date must be in the future"
        "INVALID_EXPIRATION",
      validationError "collectedAt" "Collection date cannot be in the future"
        "INVALID_COLLECTION_DATE"] ≠ ([] : List ValidationError) ∧
      [validationError "id" "EvidenceId cannot be empty" "EMPTY_ID",
       validationError "expiresAt" "Expiration date must be in the future"
         "INVALID_EXPIRATION",
       validationError "collectedAt" "Collection date cannot be in the future"
         "INVALID_COLLECTION_DATE"].map (fun e => e.code) =
        ["EMPTY_ID", "INVALID_EXPIRATION", "INVALID_COLLECTION_DATE"]) :=
  ⟨(createEvidence_spec 100 _).2.2
    (by
      rintro (h | ⟨t, ht, hle⟩ | h)
      · exact absurd h (by decide)
      · cases ht
        exact absurd hle (by decide)
      · exact absurd h (by decide)),
   (createEvidence_spec 100 _).1.mpr (Or.inl (by decide)),
   (createEvidence_spec 100
      ⟨"", "c-1", EvidenceType.document "https://x" FileType.pdf,
        101, some 100, "d"⟩).2.1 _ (by decide)⟩

/-! ## C10 -/

/-- `createRisk` with its `let`s inlined, as a rewriting equation. -/
theorem createRisk_eq (now : Int) (input : CreateRiskInput) :
    createRisk now input =
      if ((match riskId input.id with
            | .err e => [e]
            | .ok _ => []) ++
          (if input.title = "" ∨ (jsTrim input.title).length = 0 then
            [validationError "title" "Risk title is required" "REQUIRED"]
          else [])).length > 0 then
        .err ((match riskId input.id with
            | .err e => [e]
            | .ok _ => []) ++
          (if input.title = "" ∨ (jsTrim input.title).length = 0 then
            [validationError "title" "Risk title is required" "REQUIRED"]
          else []))
      else
        .ok
          { id := match riskId input.id with
              | .ok v => v
              | .err _ => input.id
            title := input.title
            description := input.description
            category := input.category
            inherentScore := calculateRiskScore input.likelihood input.impact
            residualScore := calculateRiskScore input.likelihood input.impact
            status := .identified now
            ownerId := input.ownerId } := rfl

/-- C10: `createRisk` initialises `residualScore` equal to `inherentScore`,
both computed as `calculateRiskScore(likelihood, impact)`; and
`updateResidualScore` is total (it returns a `Risk`, never an error),
replaces `residualScore` with the recomputed score and leaves
`inherentScore` and every other field untouched. -/
theorem residualScore_frame :
    (∀ (now : Int) (input : CreateRiskInput) (r : Risk),
      createRisk now input = Result.ok r →
      r.inherentScore = calculateRiskScore input.likelihood input.impact ∧
      r.residualScore = r.inherentScore) ∧
    (∀ (r : Risk) (l i : RiskLevel),
      (updateResidualScore r l i).residualScore = calculateRiskScore l i ∧
      (updateResidualScore r l i).inherentScore = r.inherentScore ∧
      (updateResidualScore r l i).id = r.id ∧
      (updateResidualScore r l i).title = r.title ∧
      (updateResidualScore r l i).description = r.description ∧
      (updateResidualScore r l i).category = r.category ∧
      (updateResidualScore r l i).status = r.status ∧
      (updateResidualScore r l i).ownerId = r.ownerId) := by
  constructor
  · intro now input r h
    rw [createRisk_eq] at h
    by_cases hc : ((match riskId input.id with
        | .err e => [e]
        | .ok _ => []) ++
      (if input.title = "" ∨ (jsTrim input.title).length = 0 then
        [validationError "title" "Risk title is required" "REQUIRED"]
      else [])).length > 0
    · rw [if_pos hc] at h
      exact nomatch h
    · rw [if_neg hc] at h
      cases h
      exact ⟨rfl, rfl⟩
  · intro r l i
    exact ⟨rfl, rfl, rfl, rfl, rfl, rfl, rfl, rfl⟩

/-- Witness for C10 at a concrete input: a freshly created risk has
`residualScore` equal to its `inherentScore`, the High×Medium score. -/
theorem residualScore_frame_witness :
    (⟨"r-1", "Outage", "d", RiskCategory.operational,
        calculateRiskScore RiskLevel.high RiskLevel.medium,
        calculateRiskScore RiskLevel.high RiskLevel.medium,
        RiskStatus.identified 0, "u-1"⟩ : Risk).inherentScore =
      calculateRiskScore RiskLevel.high RiskLevel.medium ∧
    (⟨"r-1", "Outage", "d", RiskCategory.operational,
        calculateRiskScore RiskLevel.high RiskLevel.medium,
        calculateRiskScore RiskLevel.high RiskLevel.medium,
        RiskStatus.identified 0, "u-1"⟩ : Risk).residualScore =
      (⟨"r-1", "Outage", "d", RiskCategory.operational,
        calculateRiskScore RiskLevel.high RiskLevel.medium,
        calculateRiskScore RiskLevel.high RiskLevel.medium,
        RiskStatus.identified 0, "u-1"⟩ : Risk).inherentScore :=
  residualScore_frame.1 0
    ⟨"r-1", "Outage", "d", RiskCategory.operational,
      RiskLevel.high, RiskLevel.medium, "u-1"⟩ _ rfl

end GRC
